import Mathlib

/-!
Verification development for the `ScreepsClient` protocol core
(`src/ScreepsClient.ts`): connection lifecycle, SockJS-style framing,
inner authentication handshake, console channel dispatch, command
dispatch and credential rotation.

The embedding is a faithful shallow translation of the TypeScript
source: JavaScript strings become `String`, nullable fields become
`Option`, the event-emitter / callback / HTTP / WebSocket side effects
of a call are collected in an explicit effect trace (`Eff`), and the
`async` suspension points of `connect()` are modelled as separate
atomic steps of a step machine (`Step`), mirroring the single-threaded
JavaScript event loop in which each handler runs to completion.
-/

set_option maxRecDepth 4000

/-- JSON values as produced by `JSON.parse`.  Number literals keep their
lexeme, which is all the client ever observes of them (template-string
rendering). -/
inductive Json where
  | null
  | bool (b : Bool)
  | num (lexeme : String)
  | str (s : String)
  | arr (elems : List Json)
  | obj (fields : List (String × Json))
deriving Repr

/-- Opening brace character, `\x7b`. -/
def obraceC : Char := Char.ofNat 123

/-- Closing brace character, `\x7d`. -/
def cbraceC : Char := Char.ofNat 125

/-- Lowercase hex digit for `n < 16`, as used by `JSON.stringify` in
`\u00XX` escapes. -/
def hexDigit (n : Nat) : Char :=
  if n < 10 then Char.ofNat (48 + n) else Char.ofNat (87 + n)

/-- Value of a hex digit character accepted by `JSON.parse` in a
`\uXXXX` escape. -/
def parseHexDigit (c : Char) : Option Nat :=
  if '0' ≤ c ∧ c ≤ '9' then some (c.toNat - 48)
  else if 'a' ≤ c ∧ c ≤ 'f' then some (c.toNat - 87)
  else if 'A' ≤ c ∧ c ≤ 'F' then some (c.toNat - 55)
  else none

/-- `JSON.stringify` escaping of one character inside a string literal:
quote, backslash and the named control escapes, `\u00XX` for the
remaining control characters, everything else verbatim. -/
def escChar (c : Char) : List Char :=
  if c = '"' then ['\\', '"']
  else if c = '\\' then ['\\', '\\']
  else if c = Char.ofNat 8 then ['\\', 'b']
  else if c = Char.ofNat 9 then ['\\', 't']
  else if c = Char.ofNat 10 then ['\\', 'n']
  else if c = Char.ofNat 12 then ['\\', 'f']
  else if c = Char.ofNat 13 then ['\\', 'r']
  else if c.toNat < 32 then ['\\', 'u', '0', '0', hexDigit (c.toNat / 16), hexDigit (c.toNat % 16)]
  else [c]

/-- JSON string-literal body parser: consumes up to and including the
closing quote, undoing escapes; rejects raw control characters and bad
escapes exactly as `JSON.parse` does. -/
def parseStringBody : List Char → Option (List Char × List Char)
  | [] => none
  | c :: rest =>
    if c = '"' then some ([], rest)
    else if c = '\\' then
      match rest with
      | [] => none
      | e :: rest2 =>
        if e = '"' then (parseStringBody rest2).map (fun p => ('"' :: p.1, p.2))
        else if e = '\\' then (parseStringBody rest2).map (fun p => ('\\' :: p.1, p.2))
        else if e = '/' then (parseStringBody rest2).map (fun p => ('/' :: p.1, p.2))
        else if e = 'b' then (parseStringBody rest2).map (fun p => (Char.ofNat 8 :: p.1, p.2))
        else if e = 'f' then (parseStringBody rest2).map (fun p => (Char.ofNat 12 :: p.1, p.2))
        else if e = 'n' then (parseStringBody rest2).map (fun p => (Char.ofNat 10 :: p.1, p.2))
        else if e = 'r' then (parseStringBody rest2).map (fun p => (Char.ofNat 13 :: p.1, p.2))
        else if e = 't' then (parseStringBody rest2).map (fun p => (Char.ofNat 9 :: p.1, p.2))
        else if e = 'u' then
          match rest2 with
          | h1 :: h2 :: h3 :: h4 :: rest3 =>
            match parseHexDigit h1, parseHexDigit h2, parseHexDigit h3, parseHexDigit h4 with
            | some a, some b, some c2, some d =>
              (parseStringBody rest3).map
                (fun p => (Char.ofNat (a * 4096 + b * 256 + c2 * 16 + d) :: p.1, p.2))
            | _, _, _, _ => none
          | _ => none
        else none
    else if c.toNat < 32 then none
    else (parseStringBody rest).map (fun p => (c :: p.1, p.2))

/-- JSON whitespace skipping (space, tab, LF, CR). -/
def skipWs : List Char → List Char
  | c :: rest =>
    if c = ' ' ∨ c = Char.ofNat 9 ∨ c = Char.ofNat 10 ∨ c = Char.ofNat 13 then skipWs rest
    else c :: rest
  | [] => []

/-- Is this an ASCII decimal digit? -/
def isDigitC (c : Char) : Bool := '0' ≤ c ∧ c ≤ '9'

/-- One or more decimal digits (longest prefix). -/
def digits1 (cs : List Char) : Option (List Char × List Char) :=
  let t := cs.takeWhile isDigitC
  if t = [] then none else some (t, cs.drop t.length)

/-- Integer part of a JSON number: `0` or a nonzero digit followed by
digits (`JSON.parse` rejects leading zeros). -/
def parseIntPart : List Char → Option (List Char × List Char)
  | c :: rest =>
    if c = '0' then some (['0'], rest)
    else if isDigitC c then
      let t := rest.takeWhile isDigitC
      some (c :: t, rest.drop t.length)
    else none
  | [] => none

/-- Optional exponent part of a JSON number, given the lexeme so far. -/
def parseNumExp (lex : List Char) (cs : List Char) : Option (Json × List Char) :=
  match cs with
  | e :: r =>
    if e = 'e' ∨ e = 'E' then
      let sr : List Char × List Char :=
        match r with
        | '+' :: rr => (['+'], rr)
        | '-' :: rr => (['-'], rr)
        | _ => ([], r)
      match digits1 sr.2 with
      | some (ds, r2) => some (Json.num (String.mk (lex ++ e :: sr.1 ++ ds)), r2)
      | none => none
    else some (Json.num (String.mk lex), cs)
  | [] => some (Json.num (String.mk lex), [])

/-- JSON number grammar: `-? int frac? exp?`. -/
def parseNumber (cs : List Char) : Option (Json × List Char) :=
  let sp : List Char × List Char :=
    match cs with
    | '-' :: r => (['-'], r)
    | _ => ([], cs)
  match parseIntPart sp.2 with
  | none => none
  | some (ip, cs2) =>
    match cs2 with
    | '.' :: r =>
      match digits1 r with
      | some (ds, r2) => parseNumExp (sp.1 ++ ip ++ '.' :: ds) r2
      | none => none
    | _ => parseNumExp (sp.1 ++ ip) cs2

mutual

/-- Fuel-indexed JSON value parser mirroring `JSON.parse` (value after
optional whitespace; the caller checks that the remainder is empty). -/
def parseValue : Nat → List Char → Option (Json × List Char)
  | 0, _ => none
  | n + 1, cs =>
    match skipWs cs with
    | '"' :: rest => (parseStringBody rest).map (fun p => (Json.str (String.mk p.1), p.2))
    | '[' :: rest =>
      match skipWs rest with
      | ']' :: rest2 => some (Json.arr [], rest2)
      | cs2 =>
        match parseItemsNE n cs2 with
        | some (vs, r) => some (Json.arr vs, r)
        | none => none
    | 't' :: 'r' :: 'u' :: 'e' :: rest => some (Json.bool true, rest)
    | 'f' :: 'a' :: 'l' :: 's' :: 'e' :: rest => some (Json.bool false, rest)
    | 'n' :: 'u' :: 'l' :: 'l' :: rest => some (Json.null, rest)
    | c :: rest =>
      if c = obraceC then
        match skipWs rest with
        | c2 :: rest2 =>
          if c2 = cbraceC then some (Json.obj [], rest2)
          else
            match parseFieldsNE n (c2 :: rest2) with
            | some (fs, r) => some (Json.obj fs, r)
            | none => none
        | [] => none
      else parseNumber (c :: rest)
    | [] => none

/-- One or more comma-separated array items followed by `]`. -/
def parseItemsNE : Nat → List Char → Option (List Json × List Char)
  | 0, _ => none
  | n + 1, cs =>
    match parseValue n cs with
    | none => none
    | some (v, rest) =>
      match skipWs rest with
      | ',' :: rest2 =>
        match parseItemsNE n rest2 with
        | some (vs, r) => some (v :: vs, r)
        | none => none
      | ']' :: rest2 => some ([v], rest2)
      | _ => none

/-- One or more `"key": value` object fields followed by the closing
brace. -/
def parseFieldsNE : Nat → List Char → Option (List (String × Json) × List Char)
  | 0, _ => none
  | n + 1, cs =>
    match skipWs cs with
    | '"' :: rest =>
      match parseStringBody rest with
      | none => none
      | some (k, rest2) =>
        match skipWs rest2 with
        | ':' :: rest3 =>
          match parseValue n rest3 with
          | none => none
          | some (v, rest4) =>
            match skipWs rest4 with
            | ',' :: rest5 =>
              match parseFieldsNE n rest5 with
              | some (fs, r) => some ((String.mk k, v) :: fs, r)
              | none => none
            | c :: rest5 =>
              if c = cbraceC then some ([(String.mk k, v)], rest5) else none
            | [] => none
        | _ => none
    | _ => none

end

/-- `JSON.parse` on a character list: parse one value, then require the
remainder to be (whitespace-padded) empty. -/
def parseJsonChars (cs : List Char) : Option Json :=
  match parseValue (cs.length + 2) cs with
  | some (v, rest) => if skipWs rest = [] then some v else none
  | none => none

/-- `JSON.parse` on a string. -/
def parseJsonStr (s : String) : Option Json := parseJsonChars s.data

/-- Join character lists with commas, as in a serialized JSON array. -/
def joinComma : List (List Char) → List Char
  | [] => []
  | [x] => x
  | x :: xs => x ++ ',' :: joinComma xs

/-- Characters of the `JSON.stringify` representation of one string. -/
def quoteChars (s : String) : List Char :=
  '"' :: s.data.flatMap escChar ++ ['"']

/-- `JSON.stringify` of an array of strings, e.g. the `[msg]` wrapper
the client sends on the SockJS socket. -/
def jsonStringifyArr (xs : List String) : String :=
  String.mk ('[' :: joinComma (xs.map quoteChars) ++ [']'])

example : jsonStringifyArr [("hi")] = ("[\"hi\"]") := by decide
example : parseJsonStr ("[\"hi\", \"b\"]") =
    some (Json.arr [Json.str ("hi"), Json.str ("b")]) := rfl
example : parseJsonStr ("[\"hi\"") = none := rfl
example : parseJsonStr ("[1, 2.5e3, true]") =
    some (Json.arr [Json.num ("1"), Json.num ("2.5e3"), Json.bool true]) := rfl
example : parseJsonStr ("[1,]") = none := rfl
example : parseJsonStr ("[01]") = none := rfl
example : parseJsonStr (" [\"a\\n\\u0007b\"] ") =
    some (Json.arr [Json.str (String.mk ['a', Char.ofNat 10, Char.ofNat 7, 'b'])]) := rfl

/-- Observable actions of one synchronous run of client code, in
execution order: emitted events, sent frames, HTTP requests, callback
invocations, completion-handle settlements, and (for ordering claims)
each assignment to the `connected` flag. -/
inductive Eff where
  | log (s : String)
  | error (s : String)
  | status (s : String)
  | console (s : String)
  | onTok (s : String)
  | sendFrame (s : String)
  | httpAuth (token : String)
  | httpCmd (expr : String) (shard : String) (token : String)
  | wsNew (url : String)
  | wsCloseCall
  | resolveH (id : Nat)
  | rejectH (id : Nat) (msg : String)
  | connSet (b : Bool)
  | consoleErr
deriving Repr, DecidableEq

/-- The mutable fields of `ScreepsClient`, plus two pieces of model
bookkeeping: `nextHandle` numbers the Pending-Connect Handles so a
settlement names the handle it settles, and `httpAuthInFlight` counts
`connect()` calls suspended at the `await axios.get` point. -/
structure Client where
  token : String
  userId : Option String
  /-- `some b`: a WebSocket exists and `b` says whether its
  `readyState` is `OPEN`; `none`: the `ws` field is `null`. -/
  ws : Option Bool
  connected : Bool
  activeShard : String
  intentionalClose : Bool
  pendingConnect : Option Nat
  nextHandle : Nat
  httpAuthInFlight : Nat
deriving Repr, DecidableEq

/-- A fresh client, as built by the constructor. -/
def mkClient (token : String) : Client :=
  { token := token, userId := none, ws := none, connected := false,
    activeShard := ("shard3"), intentionalClose := false,
    pendingConnect := none, nextHandle := 0, httpAuthInFlight := 0 }

/-- Boolean string-prefix test (JavaScript `String.prototype.startsWith`). -/
def strHasPfx (s p : String) : Bool := p.data.isPrefixOf s.data

/-- Value carried by an HTTP response header: a string, or anything
else (the source checks `typeof nextToken === 'string'`). -/
inductive HVal where
  | str (v : String)
  | nonstr
deriving Repr, DecidableEq

/-- The response headers as far as the client reads them: the
`x-token` and `X-Token` entries (`headers?.['x-token'] ?? headers?.['X-Token']`). -/
structure HeadersM where
  xTokenLower : Option HVal
  xTokenUpper : Option HVal
deriving Repr, DecidableEq

/-- `headers?.['x-token'] ?? headers?.['X-Token']`: the lowercase entry
if present (nullish coalescing), otherwise the uppercase one. -/
def headerLookup (h : HeadersM) : Option HVal :=
  match h.xTokenLower with
  | some v => some v
  | none => h.xTokenUpper

/-- ASCII whitespace, as stripped by JavaScript `String.prototype.trim`. -/
def isWsC (c : Char) : Bool :=
  c = ' ' ∨ c = Char.ofNat 9 ∨ c = Char.ofNat 10 ∨ c = Char.ofNat 11 ∨
    c = Char.ofNat 12 ∨ c = Char.ofNat 13

/-- JavaScript `s.trim()`: strip leading and trailing whitespace. -/
def trimStr (s : String) : String :=
  String.mk (((s.data.dropWhile isWsC).reverse.dropWhile isWsC).reverse)

/-- `ScreepsClient.setToken`: adopt a rotated credential unless it is
empty or equal to the current one; notify the `onToken` callback on a
real change. -/
def setToken (c : Client) (t : String) : Client × List Eff :=
  if t = ("") ∨ t = c.token then (c, [])
  else ({ c with token := t }, [Eff.onTok t])

/-- `ScreepsClient.updateTokenFromHeaders`: read the rotation header
(case-insensitively, lowercase preferred), require a string that is
nonempty after trimming, and hand the trimmed value to `setToken`. -/
def updateTokenFromHeaders (c : Client) (h : HeadersM) : Client × List Eff :=
  match headerLookup h with
  | some (HVal.str v) => if trimStr v ≠ ("") then setToken c (trimStr v) else (c, [])
  | _ => (c, [])

/-- `ScreepsClient.sendSockJS`: if a socket exists and its `readyState`
is `OPEN`, send the message wrapped in a one-element JSON array as a
single text frame. -/
def sendSockJS (c : Client) (msg : String) : List Eff :=
  match c.ws with
  | some true => [Eff.sendFrame (jsonStringifyArr [msg])]
  | _ => []

/-- `ScreepsClient.authenticateWebSocket`: send the in-band `auth`
command built from the current credential. -/
def authenticateWebSocket (c : Client) : List Eff :=
  match c.ws with
  | none => []
  | some _ => sendSockJS c (("auth ") ++ c.token)

/-- `ScreepsClient.subscribeConsole`: guard on socket and identity,
send the per-user console subscription, log. -/
def subscribeConsole (c : Client) : List Eff :=
  match c.ws, c.userId with
  | some _, some uid =>
    sendSockJS c (("subscribe user:") ++ uid ++ ("/console")) ++ [Eff.log (("Subscribed to console."))]
  | _, _ => []

/-- `ScreepsClient.closeWebSocket`: if a socket exists, set the
intentional-close flag, close and drop it; clear the connected flag and
the Pending-Connect Handle (without settling it); unless silent, emit a
`disconnected` status event. -/
def closeWebSocket (c : Client) (silent : Bool) : Client × List Eff :=
  let p : Client × List Eff :=
    match c.ws with
    | some _ => ({ c with intentionalClose := true, ws := none }, [Eff.wsCloseCall])
    | none => (c, [])
  let c2 := { p.1 with connected := false, pendingConnect := none }
  (c2, p.2 ++ [Eff.connSet false] ++ (if silent then [] else [Eff.status (("disconnected"))]))

/-- `ScreepsClient.disconnect`. -/
def disconnect (c : Client) : Client × List Eff := closeWebSocket c false

/-- Console channel messages object: the `log` and `results` arrays,
each optional.  Entries are carried as the strings they render to in
the emitted events. -/
structure ConsoleMessages where
  log : Option (List String)
  results : Option (List String)
deriving Repr, DecidableEq

/-- A console channel payload in the shape the server sends: optional
`shard`, `messages`, `error` fields.  `Option` models field presence;
the emptiness checks in the handler model JavaScript truthiness of the
string-valued fields. -/
structure Payload where
  shard : Option String
  messages : Option ConsoleMessages
  error : Option String
deriving Repr, DecidableEq

/-- `ScreepsClient.handleConsolePayload`: adopt a (truthy) `shard`;
emit one console event per `messages.log` entry in order, then one
`Result: `-tagged event per `messages.results` entry in order;
otherwise one `Error: ` event for a truthy `error`. -/
def handleConsolePayload (c : Client) (p : Payload) : Client × List Eff :=
  let c1 :=
    match p.shard with
    | some sh => if sh ≠ ("") then { c with activeShard := sh } else c
    | none => c
  match p.messages with
  | some ms =>
    (c1, (ms.log.getD []).map Eff.console
      ++ (ms.results.getD []).map (fun r => Eff.console (("Result: ") ++ r)))
  | none =>
    match p.error with
    | some err => if err ≠ ("") then (c1, [Eff.console (("Error: ") ++ err)]) else (c1, [])
    | none => (c1, [])

/-- `ScreepsClient.setActiveShard`. -/
def setActiveShard (c : Client) (shard : String) : Client :=
  { c with activeShard := shard }

example : (setToken (mkClient ("a")) ("b")).2 = [Eff.onTok ("b")] := by decide
example : (handleConsolePayload (mkClient ("a"))
    { shard := some (""), messages := none, error := none }).1.activeShard = ("shard3") := by decide

/-- Boolean string-suffix test (JavaScript `String.prototype.endsWith`). -/
def strHasSfx (s p : String) : Bool := p.data.isSuffixOf s.data

/-- Accumulator loop for `splitSp`. -/
def splitSpAux : List Char → List Char → List String
  | [], acc => [String.mk acc.reverse]
  | c :: rest, acc =>
    if c = ' ' then String.mk acc.reverse :: splitSpAux rest []
    else splitSpAux rest (c :: acc)

/-- JavaScript `msg.split(' ')`: split on every single space, keeping
empty segments. -/
def splitSp (s : String) : List String := splitSpAux s.data []

example : splitSp (("auth ok tok123")) = [("auth"), ("ok"), ("tok123")] := by decide
example : splitSp (("auth ok ")) = [("auth"), ("ok"), ("")] := by decide

mutual

/-- JavaScript template-string rendering of a value (`\x60${v}\x60`):
strings verbatim, numbers by their lexeme, arrays comma-joined,
objects as `[object Object]`. -/
def jsonRender : Json → String
  | Json.str s => s
  | Json.num lx => lx
  | Json.bool true => ("true")
  | Json.bool false => ("false")
  | Json.null => ("null")
  | Json.arr l => jsonRenderList l
  | Json.obj _ => ("[object Object]")

/-- Comma-joined rendering of array elements. -/
def jsonRenderList : List Json → String
  | [] => ("")
  | [x] => jsonRender x
  | x :: xs => jsonRender x ++ (",") ++ jsonRenderList xs

end

/-- First-match field lookup in a parsed JSON object. -/
def jsonLookup (fs : List (String × Json)) (k : String) : Option Json :=
  match fs with
  | [] => none
  | (k1, v) :: rest => if k1 = k then some v else jsonLookup rest k

/-- Typed view of a `messages` field: the `log` / `results` arrays with
their entries rendered to the strings the events carry. -/
def jsonToMessages : Json → Option ConsoleMessages
  | Json.obj fs =>
    let logv : Option (List String) :=
      match jsonLookup fs ("log") with
      | some (Json.arr l) => some (l.map jsonRender)
      | _ => none
    let resv : Option (List String) :=
      match jsonLookup fs ("results") with
      | some (Json.arr l) => some (l.map jsonRender)
      | _ => none
    some { log := logv, results := resv }
  | _ => none

/-- Typed view of a channel payload value.  `none` (for `null`) models
the property access that throws and is swallowed by the caller's
`catch`; a primitive payload has no fields, hence the all-absent view. -/
def jsonToPayload : Json → Option Payload
  | Json.obj fs =>
    let shardv : Option String :=
      match jsonLookup fs ("shard") with
      | some (Json.str s) => some s
      | _ => none
    let errv : Option String :=
      match jsonLookup fs ("error") with
      | some (Json.str s) => some s
      | _ => none
    some { shard := shardv,
           messages := (jsonLookup fs ("messages")).bind jsonToMessages,
           error := errv }
  | Json.null => none
  | _ => some { shard := none, messages := none, error := none }

/-- `ScreepsClient.processInnerMessage`: dispatch one inner message by
prefix — `auth ok` (handshake success), `auth failed`, `time` (no-op),
`[` (channel tuple routed by `/console` suffix), anything else ignored. -/
def processInnerMessage (c : Client) (msg : String) : Client × List Eff :=
  if strHasPfx msg ("auth ok") then
    let parts := splitSp msg
    let nextToken : Option String := if parts.length ≥ 3 then parts[2]? else none
    let p1 : Client × List Eff :=
      match nextToken with
      | some t => if t ≠ ("") then setToken c t else (c, [])
      | none => (c, [])
    let c2 := { p1.1 with connected := true }
    let e2 := subscribeConsole c2
    let p3 : Client × List Eff :=
      match c2.pendingConnect with
      | some n => ({ c2 with pendingConnect := none }, [Eff.resolveH n])
      | none => (c2, [])
    (p3.1, Eff.log (("WebSocket Authentication successful.")) :: p1.2
      ++ [Eff.connSet true] ++ e2 ++ [Eff.status (("connected"))] ++ p3.2)
  else if strHasPfx msg ("auth failed") then
    let p : Client × List Eff :=
      match c.pendingConnect with
      | some n => ({ c with pendingConnect := none },
          [Eff.rejectH n (("WebSocket authentication failed."))])
      | none => (c, [])
    (p.1, Eff.error (("WebSocket Authentication failed.")) :: Eff.status (("disconnected")) :: p.2)
  else if strHasPfx msg ("time") then (c, [])
  else if strHasPfx msg ("[") then
    match parseJsonStr msg with
    | some (Json.arr (Json.str chs :: rest)) =>
      if strHasSfx chs ("/console") then
        match rest with
        | pl :: _ =>
          match jsonToPayload pl with
          | some p => handleConsolePayload c p
          | none => (c, [])
        | [] => (c, [])
      else (c, [])
    | _ => (c, [])
  else (c, [])

/-- Result of classifying one raw frame: not-for-us, a decode failure
(logged via `console.error`, nothing else), or the inner messages to
dispatch.  `aborted` records that the `for..of` loop hit a non-string
element, whose `startsWith` call throws into the same `catch`. -/
inductive FrameResult where
  | ignore
  | badJson
  | msgs (ms : List String) (aborted : Bool)
deriving Repr, DecidableEq

/-- Longest string prefix of the decoded element list, and whether a
non-string element cut the dispatch loop short. -/
def strPfxOf : List Json → List String × Bool
  | [] => ([], false)
  | Json.str s :: rest => let p := strPfxOf rest; (s :: p.1, p.2)
  | _ :: _ => ([], true)

/-- What `for (const msg of messages)` iterates over: array elements,
the characters of a string, otherwise a thrown `TypeError` (`none`). -/
def forOfElems : Json → Option (List Json)
  | Json.arr l => some l
  | Json.str s => some (s.data.map (fun ch => Json.str (String.mk [ch])))
  | _ => none

/-- The SockJS inbound classification of `ScreepsClient.handleMessage`:
`o` and `h` frames are no-ops, an `a` frame carries a JSON payload of
inner messages, anything else is ignored. -/
def decodeFrame (data : String) : FrameResult :=
  match data.data with
  | 'o' :: _ => FrameResult.ignore
  | 'h' :: _ => FrameResult.ignore
  | 'a' :: rest =>
    match parseJsonChars rest with
    | none => FrameResult.badJson
    | some v =>
      match forOfElems v with
      | none => FrameResult.badJson
      | some elems => FrameResult.msgs (strPfxOf elems).1 (strPfxOf elems).2
  | _ => FrameResult.ignore

/-- Dispatch a list of inner messages in order, threading the state. -/
def processMsgs (c : Client) : List String → Client × List Eff
  | [] => (c, [])
  | m :: rest =>
    let p := processInnerMessage c m
    let q := processMsgs p.1 rest
    (q.1, p.2 ++ q.2)

/-- `ScreepsClient.handleMessage` on one raw text frame; the `catch`
around the decode turns any failure into a `console.error` call. -/
def handleMessage (c : Client) (data : String) : Client × List Eff :=
  match decodeFrame data with
  | FrameResult.ignore => (c, [])
  | FrameResult.badJson => (c, [Eff.consoleErr])
  | FrameResult.msgs ms ab =>
    let p := processMsgs c ms
    (p.1, p.2 ++ (if ab then [Eff.consoleErr] else []))

/-- The inner messages a raw frame hands to the Message Dispatcher. -/
def sockjsDispatched (data : String) : List String :=
  match decodeFrame data with
  | FrameResult.msgs ms _ => ms
  | _ => []

/-- The `open` handler: the socket's `readyState` becomes `OPEN`, then
the handler logs and sends the in-band `auth` command. -/
def wsOnOpen (c : Client) : Client × List Eff :=
  let c1 := { c with ws := c.ws.map (fun _ => true) }
  (c1, Eff.log (("WebSocket connected.")) :: authenticateWebSocket c1)

/-- The `close` handler: log, clear the connected flag, reject a still
occupied Pending-Connect Handle, and emit `disconnected` only for a
non-intentional close of a connection that had been established. -/
def wsOnClose (c : Client) : Client × List Eff :=
  let wasConnected := c.connected
  let c1 := { c with connected := false }
  let p : Client × List Eff :=
    match c1.pendingConnect with
    | some n => ({ c1 with pendingConnect := none },
        [Eff.rejectH n (("WebSocket closed before authentication completed."))])
    | none => (c1, [])
  (p.1, Eff.log (("WebSocket disconnected.")) :: Eff.connSet false :: p.2
    ++ (if !c.intentionalClose && wasConnected then [Eff.status (("disconnected"))] else []))

/-- The `error` handler: emit the error event and reject a still
occupied Pending-Connect Handle. -/
def wsOnError (c : Client) (m : String) : Client × List Eff :=
  let p : Client × List Eff :=
    match c.pendingConnect with
    | some n => ({ c with pendingConnect := none },
        [Eff.rejectH n (("WebSocket error: ") ++ m)])
    | none => (c, [])
  (p.1, Eff.error (("WebSocket error: ") ++ m) :: p.2)

/-- The randomized SockJS-style endpoint path. -/
def wsUrl (serverId : Nat) (sessionId : String) : String :=
  ("wss://screeps.com/socket/") ++ toString serverId ++ ("/") ++ sessionId ++ ("/websocket")

/-- `ScreepsClient.connectWebSocket` up to its suspension: silently
force-close any prior transport, clear the intentional-close flag, open
a fresh socket, and install a fresh Pending-Connect Handle.  The random
server and session ids are taken as parameters. -/
def connectWebSocket (c : Client) (serverId : Nat) (sessionId : String) : Client × List Eff :=
  let p := closeWebSocket c true
  let c2 := { p.1 with intentionalClose := false }
  let c3 := { c2 with ws := some false, pendingConnect := some c2.nextHandle,
                      nextHandle := c2.nextHandle + 1 }
  (c3, p.2 ++ [Eff.log (("Connecting to WebSocket: ") ++ wsUrl serverId sessionId),
               Eff.wsNew (wsUrl serverId sessionId)])

/-- `ScreepsClient.connect` from its entry to the `await axios.get`
suspension point: an occupied Pending-Connect Handle makes the call a
no-op; otherwise emit `connecting`, log, and issue the HTTP
authentication request (one more suspended `connect()` in flight). -/
def connectEntry (c : Client) : Client × List Eff :=
  if c.pendingConnect.isSome then (c, [])
  else ({ c with httpAuthInFlight := c.httpAuthInFlight + 1 },
    [Eff.status (("connecting")), Eff.log (("Authenticating...")), Eff.httpAuth c.token])

/-- Resumption of one suspended `connect()` when its HTTP request
succeeds: adopt a rotated header credential, fail without an identity
field, else record the identity and run `connectWebSocket`. -/
def connectAfterAuthOk (c : Client) (h : HeadersM) (mid : Option String)
    (serverId : Nat) (sessionId : String) : Client × List Eff :=
  if c.httpAuthInFlight = 0 then (c, [])
  else
    let c0 := { c with httpAuthInFlight := c.httpAuthInFlight - 1 }
    let p1 := updateTokenFromHeaders c0 h
    match mid with
    | none => (p1.1, p1.2 ++ [Eff.status (("disconnected")),
        Eff.error (("Connection failed: Failed to retrieve user ID"))])
    | some uid =>
      let c2 := { p1.1 with userId := some uid }
      let p3 := connectWebSocket c2 serverId sessionId
      (p3.1, p1.2 ++ [Eff.log (("Authenticated as user ID: ") ++ uid)] ++ p3.2)

/-- Resumption of one suspended `connect()` when its HTTP request
fails: the `catch` block's `disconnected` status and error events. -/
def connectAfterAuthErr (c : Client) (m : String) : Client × List Eff :=
  if c.httpAuthInFlight = 0 then (c, [])
  else ({ c with httpAuthInFlight := c.httpAuthInFlight - 1 },
    [Eff.status (("disconnected")), Eff.error (("Connection failed: ") ++ m)])

/-- Outcome of the `axios.post` in `sendCommand`. -/
inductive CmdOutcome where
  | ok (h : HeadersM)
  | fail (m : String)
deriving Repr, DecidableEq

/-- `ScreepsClient.sendCommand`: fail fast without an identity; else
send `expression` with the Active Shard at call time under the current
credential, adopting a rotated header credential on success and only
emitting an error event on failure. -/
def sendCommand (c : Client) (expr : String) (out : CmdOutcome) : Client × List Eff :=
  match c.userId with
  | none => (c, [Eff.error (("Cannot send command: Not authenticated."))])
  | some _ =>
    let req := Eff.httpCmd expr c.activeShard c.token
    match out with
    | CmdOutcome.ok h => let p := updateTokenFromHeaders c h; (p.1, req :: p.2)
    | CmdOutcome.fail m => (c, [req, Eff.error (("Command failed: ") ++ m)])

/-- One atomic turn of the client's event loop: a public call running
to its first suspension point, the resumption of a suspended HTTP
round trip, or one socket event handler. -/
inductive Step where
  | connectCall
  | authHttpOk (h : HeadersM) (mid : Option String) (serverId : Nat) (sessionId : String)
  | authHttpErr (m : String)
  | openEvt
  | msgEvt (data : String)
  | authOkMsg (t : String)
  | authFailedMsg
  | closeEvt
  | errorEvt (m : String)
  | disconnectCall
  | cmdCall (expr : String) (out : CmdOutcome)
deriving Repr, DecidableEq

/-- Interpretation of one step. -/
def step (c : Client) : Step → Client × List Eff
  | Step.connectCall => connectEntry c
  | Step.authHttpOk h mid sid sess => connectAfterAuthOk c h mid sid sess
  | Step.authHttpErr m => connectAfterAuthErr c m
  | Step.openEvt => wsOnOpen c
  | Step.msgEvt d => handleMessage c d
  | Step.authOkMsg t => processInnerMessage c (("auth ok ") ++ t)
  | Step.authFailedMsg => processInnerMessage c (("auth failed"))
  | Step.closeEvt => wsOnClose c
  | Step.errorEvt m => wsOnError c m
  | Step.disconnectCall => disconnect c
  | Step.cmdCall e o => sendCommand c e o

/-- Run a schedule of steps, concatenating the effect traces. -/
def runSteps (c : Client) : List Step → Client × List Eff
  | [] => (c, [])
  | st :: rest =>
    let p := step c st
    let q := runSteps p.1 rest
    (q.1, p.2 ++ q.2)

/-- Is this effect a settlement (resolution or rejection) of a
Pending-Connect Handle? -/
def isSettle : Eff → Bool
  | Eff.resolveH _ => true
  | Eff.rejectH _ _ => true
  | _ => false

/-- Number of handle settlements in a trace. -/
def settleCount : List Eff → Nat
  | [] => 0
  | x :: l => (if isSettle x then 1 else 0) + settleCount l

/-- Number of HTTP authentication requests in a trace. -/
def countHttpAuth (l : List Eff) : Nat :=
  (l.filter (fun e => match e with | Eff.httpAuth _ => true | _ => false)).length

/-- Number of transport (WebSocket) connection attempts in a trace. -/
def countWsNew (l : List Eff) : Nat :=
  (l.filter (fun e => match e with | Eff.wsNew _ => true | _ => false)).length

/-- Does `a` occur strictly before some later occurrence of `b`? -/
def beforeIn : List Eff → Eff → Eff → Bool
  | [], _, _ => false
  | x :: rest, a, b =>
    (decide (x = a) && rest.any (fun y => decide (y = b))) || beforeIn rest a b

/-- The five step kinds of the settle-once claim: handshake success,
handshake failure, socket close, socket error, and `disconnect()`. -/
def isHandlerStep : Step → Bool
  | Step.authOkMsg _ => true
  | Step.authFailedMsg => true
  | Step.closeEvt => true
  | Step.errorEvt _ => true
  | Step.disconnectCall => true
  | _ => false

/-- A client captured at the point where the handshake reply arrives:
identity resolved, socket open, one Pending-Connect Handle occupied. -/
def handshakeClient : Client :=
  { token := ("old"), userId := some ("u1"), ws := some true, connected := false,
    activeShard := ("shard3"), intentionalClose := false,
    pendingConnect := some 0, nextHandle := 1, httpAuthInFlight := 0 }

example : (processInnerMessage handshakeClient (("auth ok tok123"))).2 =
    [Eff.log (("WebSocket Authentication successful.")), Eff.onTok (("tok123")),
     Eff.connSet true, Eff.sendFrame (("[\"subscribe user:u1/console\"]")),
     Eff.log (("Subscribed to console.")), Eff.status (("connected")), Eff.resolveH 0] := by decide

example : sockjsDispatched (("a[\"x\",\"y\"]")) = [("x"), ("y")] := by decide
example : sockjsDispatched (("o")) = [] := by decide
example : sockjsDispatched (("a[oops")) = [] := by decide
example : (handleMessage (mkClient ("t")) (("a[oops"))).2 = [Eff.consoleErr] := by decide
example : countHttpAuth (runSteps (mkClient ("t")) [Step.connectCall, Step.connectCall]).2 = 2 := by
  decide

/-- Number of command-endpoint HTTP requests in a trace. -/
def countHttpCmd (l : List Eff) : Nat :=
  (l.filter (fun e => match e with | Eff.httpCmd _ _ _ => true | _ => false)).length

lemma setToken_effs (c : Client) (t : String) :
    (setToken c t).2 = [] ∨ (setToken c t).2 = [Eff.onTok t] := by
  unfold setToken
  split
  · exact Or.inl rfl
  · exact Or.inr rfl

lemma updateTokenFromHeaders_effs (c : Client) (h : HeadersM) :
    (updateTokenFromHeaders c h).2 = [] ∨
      ∃ t, (updateTokenFromHeaders c h).2 = [Eff.onTok t] := by
  unfold updateTokenFromHeaders
  rcases headerLookup h with _ | v
  · exact Or.inl rfl
  · rcases v with v | _
    · dsimp only
      split
      · rcases setToken_effs c (trimStr v) with h1 | h1
        · exact Or.inl h1
        · exact Or.inr ⟨trimStr v, h1⟩
      · exact Or.inl rfl
    · exact Or.inl rfl

/-- C10: the credential cell is replaced, and the credential-change
callback invoked, exactly when the delivered value is a nonempty string
different from the current credential; an absent, non-string,
empty-after-trimming, or unchanged value leaves the credential alone
and fires no callback.  Parts: (1) `setToken` on a nonempty differing
value, (2) `setToken` otherwise, (3) the header path delegates the
trimmed string value to `setToken`, (4) the header path does nothing
when no nonempty string value is available. -/
theorem c10_credential_rotation :
    (∀ c t, t ≠ ("") → t ≠ c.token →
      setToken c t = ({ c with token := t }, [Eff.onTok t])) ∧
    (∀ c t, t = ("") ∨ t = c.token → setToken c t = (c, [])) ∧
    (∀ c h v, headerLookup h = some (HVal.str v) → trimStr v ≠ ("") →
      updateTokenFromHeaders c h = setToken c (trimStr v)) ∧
    (∀ c h,
      (match headerLookup h with
       | some (HVal.str v) => trimStr v = ("")
       | _ => True) →
      updateTokenFromHeaders c h = (c, [])) := by
  refine ⟨?_, ?_, ?_, ?_⟩
  · intro c t h1 h2
    unfold setToken
    rw [if_neg]
    rintro (h | h)
    · exact h1 h
    · exact h2 h
  · intro c t h1
    unfold setToken
    rw [if_pos h1]
  · intro c h v hl ht
    unfold updateTokenFromHeaders
    rw [hl]
    dsimp only
    rw [if_pos ht]
  · intro c h hm
    unfold updateTokenFromHeaders
    rcases hl : headerLookup h with _ | (v | _)
    · rfl
    · rw [hl] at hm
      dsimp only at hm ⊢
      rw [hm]
      simp
    · rfl

/-- C10 witness: concrete rotations — a fresh differing token is
adopted with a callback, an equal token is ignored, a padded header
value is trimmed and delegated, and absent headers do nothing. -/
theorem c10_credential_rotation_witness :
    setToken (mkClient (("old"))) (("new")) = (mkClient (("new")), [Eff.onTok (("new"))]) ∧
    setToken (mkClient (("old"))) (("old")) = (mkClient (("old")), []) ∧
    updateTokenFromHeaders (mkClient (("old")))
        { xTokenLower := some (HVal.str ((" new "))), xTokenUpper := none } =
      setToken (mkClient (("old"))) (trimStr ((" new "))) ∧
    updateTokenFromHeaders (mkClient (("old"))) { xTokenLower := none, xTokenUpper := none } =
      (mkClient (("old")), []) := by
  refine ⟨?_, ?_, ?_, ?_⟩
  · exact c10_credential_rotation.1 _ _ (by decide) (by decide)
  · exact c10_credential_rotation.2.1 _ _ (Or.inr rfl)
  · exact c10_credential_rotation.2.2.1 _ _ _ rfl (by decide)
  · exact c10_credential_rotation.2.2.2 _ _ trivial

/-- C9: `sendCommand` (1) with no resolved identity emits exactly one
error event, performs no HTTP call and leaves the state unchanged;
(2) with an identity it issues exactly one command request, first in
its trace, carrying the expression, the Active Shard at call time and
the current credential; (3) a send failure only adds an error event and
leaves the client state unchanged. -/
theorem c9_send_command :
    (∀ c e o, c.userId = none →
      sendCommand c e o = (c, [Eff.error (("Cannot send command: Not authenticated."))])) ∧
    (∀ c e o uid, c.userId = some uid →
      countHttpCmd (sendCommand c e o).2 = 1 ∧
      (sendCommand c e o).2.head? = some (Eff.httpCmd e c.activeShard c.token)) ∧
    (∀ c e m uid, c.userId = some uid →
      sendCommand c e (CmdOutcome.fail m) =
        (c, [Eff.httpCmd e c.activeShard c.token,
             Eff.error (("Command failed: ") ++ m)])) := by
  refine ⟨?_, ?_, ?_⟩
  · intro c e o h
    unfold sendCommand
    rw [h]
  · intro c e o uid h
    unfold sendCommand
    rw [h]
    cases o with
    | ok hd =>
      dsimp only
      refine ⟨?_, rfl⟩
      rcases updateTokenFromHeaders_effs c hd with h1 | ⟨t, h1⟩ <;>
        simp [countHttpCmd, h1]
    | fail m => exact ⟨rfl, rfl⟩
  · intro c e m uid h
    unfold sendCommand
    rw [h]

/-- C9 witness: an unauthenticated client, a successful send, and a
failing send, each at concrete inputs. -/
theorem c9_send_command_witness :
    sendCommand (mkClient (("t"))) (("Game.time")) (CmdOutcome.fail (("boom"))) =
      (mkClient (("t")), [Eff.error (("Cannot send command: Not authenticated."))]) ∧
    countHttpCmd (sendCommand handshakeClient (("Game.time")) (CmdOutcome.fail (("boom")))).2 = 1 ∧
    sendCommand handshakeClient (("Game.time")) (CmdOutcome.fail (("boom"))) =
      (handshakeClient, [Eff.httpCmd (("Game.time")) (("shard3")) (("old")),
        Eff.error (("Command failed: boom"))]) := by
  refine ⟨?_, ?_, ?_⟩
  · exact c9_send_command.1 _ _ _ rfl
  · exact (c9_send_command.2.1 handshakeClient _ _ (("u1")) rfl).1
  · exact c9_send_command.2.2 handshakeClient _ _ (("u1")) rfl

/-- C8 counterexample: a payload whose `shard` field is present but
empty.  The claim says a present `shard` field overwrites the Active
Shard; the handler's JavaScript truthiness guard skips the empty
string, so the Active Shard keeps its prior value. -/
theorem c8_counterexample :
    (handleConsolePayload (mkClient (("tok")))
        { shard := some (("")),  messages := none, error := none }).1.activeShard = ("shard3") ∧
    (handleConsolePayload (mkClient (("tok")))
        { shard := some (("")),  messages := none, error := none }).1.activeShard ≠ ("") := by
  decide

/-- C8 (amended): a present *nonempty* `shard` overwrites the Active
Shard (an absent or empty one leaves it unchanged); with `messages`
present the handler emits one console event per `log` entry in order
followed by one `Result: `-tagged event per `results` entry in order;
with `messages` absent and a nonempty `error` it emits exactly one
`Error: ` event; with `messages` absent and `error` absent or empty it
emits nothing. -/
theorem c8_console_payload :
    (∀ c p sh, p.shard = some sh → sh ≠ ("") →
      (handleConsolePayload c p).1.activeShard = sh) ∧
    (∀ c p, p.shard = none ∨ p.shard = some (("")) →
      (handleConsolePayload c p).1.activeShard = c.activeShard) ∧
    (∀ c p ms, p.messages = some ms →
      (handleConsolePayload c p).2 =
        (ms.log.getD []).map Eff.console
          ++ (ms.results.getD []).map (fun r => Eff.console (("Result: ") ++ r))) ∧
    (∀ c p err, p.messages = none → p.error = some err → err ≠ ("") →
      (handleConsolePayload c p).2 = [Eff.console (("Error: ") ++ err)]) ∧
    (∀ c p, p.messages = none → (p.error = none ∨ p.error = some ((""))) →
      (handleConsolePayload c p).2 = []) := by
  have hne : ¬ ((("") : String) ≠ ("")) := by decide
  refine ⟨?_, ?_, ?_, ?_, ?_⟩
  · intro c p sh h1 h2
    obtain ⟨ps, pm, pe⟩ := p
    cases h1
    rcases pm with _ | ms <;> rcases pe with _ | err <;>
      simp [handleConsolePayload, h2] <;> first | rfl | (split_ifs <;> rfl)
  · intro c p h1
    obtain ⟨ps, pm, pe⟩ := p
    rcases h1 with h1 | h1 <;> cases h1 <;>
        rcases pm with _ | ms <;> rcases pe with _ | err <;>
      simp [handleConsolePayload, hne] <;> first | rfl | (split_ifs <;> rfl)
  · intro c p ms h1
    obtain ⟨ps, pm, pe⟩ := p
    cases h1
    rcases ps with _ | sh <;>
      simp [handleConsolePayload] <;> first | rfl | (split_ifs <;> rfl)
  · intro c p err h1 h2 h3
    obtain ⟨ps, pm, pe⟩ := p
    cases h1
    cases h2
    rcases ps with _ | sh <;>
      simp [handleConsolePayload, h3] <;> first | rfl | (split_ifs <;> rfl)
  · intro c p h1 h2
    obtain ⟨ps, pm, pe⟩ := p
    cases h1
    rcases h2 with h2 | h2 <;> cases h2 <;> rcases ps with _ | sh <;>
      simp [handleConsolePayload, hne] <;> first | rfl | (split_ifs <;> rfl)

/-- C8 witness: the spec's example payload sets the Active Shard to
`shard2` and emits exactly `a`, `b`, then the result-tagged `42`. -/
theorem c8_console_payload_witness :
    (handleConsolePayload (mkClient (("t")))
        { shard := some (("shard2")),
          messages := some { log := some [("a"), ("b")], results := some [("42")] },
          error := none }).1.activeShard = ("shard2") ∧
    (handleConsolePayload (mkClient (("t")))
        { shard := some (("shard2")),
          messages := some { log := some [("a"), ("b")], results := some [("42")] },
          error := none }).2 =
      [Eff.console (("a")), Eff.console (("b")), Eff.console (("Result: 42"))] := by
  constructor
  · exact c8_console_payload.1 _ _ _ rfl (by decide)
  · have h := c8_console_payload.2.2.1 (mkClient (("t")))
      { shard := some (("shard2")),
        messages := some { log := some [("a"), ("b")], results := some [("42")] },
        error := none } { log := some [("a"), ("b")], results := some [("42")] } rfl
    rw [h]
    decide

/-- C5: on a transport-close event the handler clears the connected
flag, rejects a still-occupied Pending-Connect Handle, and emits a
`disconnected` status event exactly when the close was not
self-initiated (intentional-close flag unset) and the connection had
previously reached Connected. -/
theorem c5_close_handler (c : Client) :
    wsOnClose c =
      ({ c with connected := false, pendingConnect := none },
        Eff.log (("WebSocket disconnected.")) :: Eff.connSet false ::
          (match c.pendingConnect with
           | some n => [Eff.rejectH n (("WebSocket closed before authentication completed."))]
           | none => [])
          ++ (if !c.intentionalClose && c.connected then [Eff.status (("disconnected"))] else [])) ∧
    (Eff.status (("disconnected")) ∈ (wsOnClose c).2 ↔
      (c.intentionalClose = false ∧ c.connected = true)) := by
  obtain ⟨tok, uid, ws, conn, sh, ic, pc, nh, ha⟩ := c
  constructor
  · cases pc <;> rfl
  · cases ic <;> cases conn <;> cases pc <;> simp [wsOnClose]

/-- C5 witness: a non-intentional close of an established connection
with an occupied handle — the flag is cleared, the handle rejected, and
`disconnected` emitted. -/
theorem c5_close_handler_witness :
    wsOnClose { handshakeClient with connected := true } =
      ({ handshakeClient with connected := false, pendingConnect := none },
        [Eff.log (("WebSocket disconnected.")), Eff.connSet false,
         Eff.rejectH 0 (("WebSocket closed before authentication completed.")),
         Eff.status (("disconnected"))]) ∧
    (Eff.status (("disconnected")) ∈ (wsOnClose { handshakeClient with connected := true }).2 ↔
      (({ handshakeClient with connected := true } : Client).intentionalClose = false ∧
        ({ handshakeClient with connected := true } : Client).connected = true)) := by
  have h := c5_close_handler { handshakeClient with connected := true }
  exact ⟨h.1, h.2⟩

/-- C6: processing the inner message `auth failed` emits an error event
and a `disconnected` status event, rejects the Pending-Connect Handle
(when occupied) with an authentication-failure error, sends no
subscribe (or any other) frame, and does not change the connected
flag. -/
theorem c6_auth_failed (c : Client) :
    processInnerMessage c (("auth failed")) =
      ({ c with pendingConnect := none },
        Eff.error (("WebSocket Authentication failed.")) :: Eff.status (("disconnected")) ::
          (match c.pendingConnect with
           | some n => [Eff.rejectH n (("WebSocket authentication failed."))]
           | none => [])) ∧
    (∀ fr, Eff.sendFrame fr ∉ (processInnerMessage c (("auth failed"))).2) ∧
    (processInnerMessage c (("auth failed"))).1.connected = c.connected := by
  obtain ⟨tok, uid, ws, conn, sh, ic, pc, nh, ha⟩ := c
  have h1 : strHasPfx (("auth failed")) (("auth ok")) = false := by decide
  have h2 : strHasPfx (("auth failed")) (("auth failed")) = true := by decide
  refine ⟨?_, ?_, ?_⟩
  · cases pc <;> simp [processInnerMessage, h1, h2]
  · intro fr
    cases pc <;> simp [processInnerMessage, h1, h2]
  · cases pc <;> simp [processInnerMessage, h1, h2]

/-- C6 witness: `auth failed` at the captured handshake state — handle
0 is rejected, no frame is sent, the connected flag stays `false`. -/
theorem c6_auth_failed_witness :
    processInnerMessage handshakeClient (("auth failed")) =
      ({ handshakeClient with pendingConnect := none },
        [Eff.error (("WebSocket Authentication failed.")), Eff.status (("disconnected")),
         Eff.rejectH 0 (("WebSocket authentication failed."))]) ∧
    Eff.sendFrame (("[\"subscribe user:u1/console\"]")) ∉
      (processInnerMessage handshakeClient (("auth failed"))).2 ∧
    (processInnerMessage handshakeClient (("auth failed"))).1.connected = false := by
  have h := c6_auth_failed handshakeClient
  exact ⟨h.1, h.2.1 _, h.2.2⟩

/-- The double-connect schedule: a second `connect()` arrives while the
first is still suspended in its HTTP authentication round trip; both
HTTP responses then arrive. -/
def doubleConnectRun : Client × List Eff :=
  runSteps (mkClient (("tok")))
    [Step.connectCall, Step.connectCall,
     Step.authHttpOk { xTokenLower := none, xTokenUpper := none } (some (("u1"))) 1 (("s1")),
     Step.authHttpOk { xTokenLower := none, xTokenUpper := none } (some (("u1"))) 2 (("s2"))]

/-- C1 counterexample: two `connect()` calls in succession while the
first is still pending (suspended at the HTTP authentication await,
where the Pending-Connect Handle is not yet installed) produce two HTTP
authentication requests, two transport connection attempts and two
Pending-Connect Handles — not the claimed single ones.  The
`pendingConnect` guard protects only the window after the handle is
installed. -/
theorem c1_counterexample :
    countHttpAuth doubleConnectRun.2 = 2 ∧ countWsNew doubleConnectRun.2 = 2 ∧
    doubleConnectRun.1.nextHandle = 2 ∧
    ¬ (countHttpAuth doubleConnectRun.2 = 1 ∧ countWsNew doubleConnectRun.2 = 1) := by decide

/-- C1 (amended): a second `connect()` is a no-op — no event, no HTTP
request, no transport attempt, no new handle, no state change — exactly
when the Pending-Connect Handle is occupied, i.e. from the moment the
WebSocket phase of a prior attempt installs the handle until that
handle is consumed; the guard does not cover a second call made while
the first attempt is still in its HTTP-authentication phase. -/
theorem c1_connect_reentry (c : Client) (n : Nat) (h : c.pendingConnect = some n) :
    connectEntry c = (c, []) := by
  unfold connectEntry
  rw [h]
  rfl

/-- C1 witness: re-entrant `connect()` at the captured handshake state
(handle 0 occupied) does nothing. -/
theorem c1_connect_reentry_witness :
    connectEntry handshakeClient = (handshakeClient, []) :=
  c1_connect_reentry handshakeClient 0 rfl

/-- Effect trace of the successful handshake reply `auth ok tok123`
arriving at the captured handshake state. -/
def authOkTrace : List Eff := (processInnerMessage handshakeClient (("auth ok tok123"))).2

/-- C2 counterexample: the claim requires the connected-mark to precede
the credential-rotation callback; in the code `setToken` (and hence the
callback) runs before `this.connected = true`, so in the actual trace
the callback strictly precedes the connected-mark and never follows
it. -/
theorem c2_counterexample :
    beforeIn authOkTrace (Eff.connSet true) (Eff.onTok (("tok123"))) = false ∧
    beforeIn authOkTrace (Eff.onTok (("tok123"))) (Eff.connSet true) = true := by decide

/-- C2 (amended): when `auth ok tok123` is processed while a connect
attempt is pending (socket open, identity resolved, handle occupied)
and `tok123` differs from the current credential, the client — in this
order, each exactly once — logs, invokes the credential-rotation
callback with `tok123`, marks the connection state connected, sends the
subscribe frame, emits the `connected` status event, and resolves the
Pending-Connect Handle with success.  (When `tok123` equals the current
credential the callback step is skipped; the claim's placement of the
connected-mark before the callback does not hold, see the
counterexample.) -/
theorem c2_auth_ok (c : Client) (uid : String) (n : Nat)
    (hu : c.userId = some uid) (hw : c.ws = some true)
    (hp : c.pendingConnect = some n) (ht : c.token ≠ ("tok123")) :
    processInnerMessage c (("auth ok tok123")) =
      ({ c with token := ("tok123"), connected := true, pendingConnect := none },
        [Eff.log (("WebSocket Authentication successful.")),
         Eff.onTok (("tok123")),
         Eff.connSet true,
         Eff.sendFrame (jsonStringifyArr [("subscribe user:") ++ uid ++ ("/console")]),
         Eff.log (("Subscribed to console.")),
         Eff.status (("connected")),
         Eff.resolveH n]) := by
  have hpfx : strHasPfx (("auth ok tok123")) (("auth ok")) = true := by decide
  have hnt : (if (splitSp (("auth ok tok123"))).length ≥ 3
      then (splitSp (("auth ok tok123")))[2]? else none) = some (("tok123")) := by decide
  have hne : (("tok123") : String) ≠ ("") := by decide
  obtain ⟨tok, uidf, wsf, conn, sh, ic, pc, nh, ha⟩ := c
  dsimp only at hu hw hp ht
  subst hu
  subst hw
  subst hp
  simp only [processInnerMessage, hpfx, if_true, hnt]
  rw [if_pos hne]
  unfold setToken
  rw [if_neg (by
    rintro (h | h)
    · exact hne h
    · exact ht h.symm)]
  simp [subscribeConsole, sendSockJS]

/-- C2 witness: the amended handshake-success behaviour evaluated at
the captured handshake state. -/
theorem c2_auth_ok_witness :
    processInnerMessage handshakeClient (("auth ok tok123")) =
      ({ handshakeClient with token := ("tok123"), connected := true, pendingConnect := none },
        [Eff.log (("WebSocket Authentication successful.")),
         Eff.onTok (("tok123")),
         Eff.connSet true,
         Eff.sendFrame (("[\"subscribe user:u1/console\"]")),
         Eff.log (("Subscribed to console.")),
         Eff.status (("connected")),
         Eff.resolveH 0]) :=
  c2_auth_ok handshakeClient (("u1")) 0 rfl rfl rfl (by decide)

@[simp] lemma settleCount_nil : settleCount [] = 0 := rfl

@[simp] lemma settleCount_cons (x : Eff) (l : List Eff) :
    settleCount (x :: l) = (if isSettle x then 1 else 0) + settleCount l := rfl

@[simp] lemma settleCount_append (a b : List Eff) :
    settleCount (a ++ b) = settleCount a + settleCount b := by
  induction a with
  | nil => simp
  | cons x a ih => simp [ih, Nat.add_assoc]

/-- Occupancy of the Pending-Connect Handle slot, as a potential for
the settle-once argument. -/
def phi (c : Client) : Nat := if c.pendingConnect.isSome then 1 else 0

lemma strHasPfx_append (p s t : String) (h : strHasPfx s p = true) :
    strHasPfx (s ++ t) p = true := by
  unfold strHasPfx at h ⊢
  rw [String.data_append]
  rw [List.isPrefixOf_iff_prefix] at h ⊢
  exact h.trans (List.prefix_append _ _)

lemma settleCount_subscribe (c : Client) : settleCount (subscribeConsole c) = 0 := by
  obtain ⟨tok, uidf, wsf, conn, sh, ic, pc, nh, ha⟩ := c
  rcases wsf with _ | b
  · rcases uidf with _ | u <;> rfl
  · rcases uidf with _ | u
    · rfl
    · cases b <;> rfl

lemma authOk_settle (c : Client) (t : String) :
    settleCount (processInnerMessage c ((("auth ok ")) ++ t)).2 +
      phi (processInnerMessage c ((("auth ok ")) ++ t)).1 ≤ phi c := by
  have hpfx : strHasPfx ((("auth ok ")) ++ t) (("auth ok")) = true :=
    strHasPfx_append _ _ _ (by decide)
  simp only [processInnerMessage, hpfx, if_true]
  cases hnt : (if (splitSp ((("auth ok ")) ++ t)).length ≥ 3
      then (splitSp ((("auth ok ")) ++ t))[2]? else none) with
  | none =>
    obtain ⟨tok, uidf, wsf, conn, sh, ic, pc, nh, ha⟩ := c
    cases pc <;>
      simp [settleCount_subscribe, isSettle, phi]
  | some tk =>
    obtain ⟨tok, uidf, wsf, conn, sh, ic, pc, nh, ha⟩ := c
    by_cases htk : tk = ("")
    · subst htk
      cases pc <;> simp [settleCount_subscribe, isSettle, phi]
    · simp only [ne_eq, htk, not_false_iff, if_true]
      unfold setToken
      split <;> cases pc <;> simp [settleCount_subscribe, isSettle, phi]

lemma authFailed_settle (c : Client) :
    settleCount (processInnerMessage c (("auth failed"))).2 +
      phi (processInnerMessage c (("auth failed"))).1 ≤ phi c := by
  have h1 : strHasPfx (("auth failed")) (("auth ok")) = false := by decide
  have h2 : strHasPfx (("auth failed")) (("auth failed")) = true := by decide
  obtain ⟨tok, uidf, wsf, conn, sh, ic, pc, nh, ha⟩ := c
  cases pc <;> simp [processInnerMessage, h1, h2, isSettle, phi]

lemma close_settle (c : Client) :
    settleCount (wsOnClose c).2 + phi (wsOnClose c).1 ≤ phi c := by
  obtain ⟨tok, uidf, wsf, conn, sh, ic, pc, nh, ha⟩ := c
  cases pc <;> cases ic <;> cases conn <;> simp [wsOnClose, isSettle, phi]

lemma error_settle (c : Client) (m : String) :
    settleCount (wsOnError c m).2 + phi (wsOnError c m).1 ≤ phi c := by
  obtain ⟨tok, uidf, wsf, conn, sh, ic, pc, nh, ha⟩ := c
  cases pc <;> simp [wsOnError, isSettle, phi]

lemma disconnect_settle (c : Client) :
    settleCount (disconnect c).2 + phi (disconnect c).1 ≤ phi c := by
  obtain ⟨tok, uidf, wsf, conn, sh, ic, pc, nh, ha⟩ := c
  rcases wsf with _ | b <;> cases pc <;>
    simp [disconnect, closeWebSocket, isSettle, phi]

lemma handler_step_settle (c : Client) (st : Step) (h : isHandlerStep st = true) :
    settleCount (step c st).2 + phi (step c st).1 ≤ phi c := by
  cases st with
  | connectCall => simp [isHandlerStep] at h
  | authHttpOk hd mid sid sess => simp [isHandlerStep] at h
  | authHttpErr m => simp [isHandlerStep] at h
  | openEvt => simp [isHandlerStep] at h
  | msgEvt d => simp [isHandlerStep] at h
  | cmdCall e o => simp [isHandlerStep] at h
  | authOkMsg t => exact authOk_settle c t
  | authFailedMsg => exact authFailed_settle c
  | closeEvt => exact close_settle c
  | errorEvt m => exact error_settle c m
  | disconnectCall => exact disconnect_settle c

lemma runSteps_settle (c : Client) (steps : List Step)
    (h : steps.all isHandlerStep = true) :
    settleCount (runSteps c steps).2 + phi (runSteps c steps).1 ≤ phi c := by
  induction steps generalizing c with
  | nil => simp [runSteps]
  | cons st rest ih =>
    simp only [List.all_cons, Bool.and_eq_true] at h
    have h1 := handler_step_settle c st h.1
    have h2 := ih (step c st).1 h.2
    simp only [runSteps, settleCount_append]
    omega

/-- C4: at most one Pending-Connect Handle exists at a time (the slot
is a single `Option` cell), and across every interleaving of handshake
success, handshake failure, socket close, socket error and
`disconnect()` steps, started from any client state, the whole run
settles (resolves or rejects) a handle at most once: the first step
that consumes the handle empties the slot, and none of these steps
re-fills it. -/
theorem c4_settle_once (c : Client) (steps : List Step)
    (h : steps.all isHandlerStep = true) :
    settleCount (runSteps c steps).2 ≤ 1 := by
  have h1 := runSteps_settle c steps h
  have h2 : phi c ≤ 1 := by unfold phi; split <;> omega
  omega

/-- C4 witness: a close racing a handshake failure and a disconnect at
the captured handshake state settles handle 0 exactly once. -/
theorem c4_settle_once_witness :
    settleCount (runSteps handshakeClient
      [Step.closeEvt, Step.authFailedMsg, Step.disconnectCall, Step.errorEvt (("x"))]).2 ≤ 1 :=
  c4_settle_once handshakeClient
    [Step.closeEvt, Step.authFailedMsg, Step.disconnectCall, Step.errorEvt (("x"))] (by decide)

/-- First character of a raw frame, if any. -/
def frameHead (data : String) : Option Char := data.data.head?

lemma strPfxOf_map_str (ss : List String) : strPfxOf (ss.map Json.str) = (ss, false) := by
  induction ss with
  | nil => rfl
  | cons s ss ih => simp [strPfxOf, ih]

lemma decodeFrame_ignore (d : String) (h : frameHead d ≠ some 'a') :
    decodeFrame d = FrameResult.ignore := by
  unfold decodeFrame
  split
  · rfl
  · rfl
  · rename_i rest heq
    exact absurd (by simp [frameHead, heq]) h
  · rfl

lemma decodeFrame_a (d : String) (cs : List Char) (hd : d.data = 'a' :: cs) :
    decodeFrame d =
      match parseJsonChars cs with
      | none => FrameResult.badJson
      | some v =>
        match forOfElems v with
        | none => FrameResult.badJson
        | some elems => FrameResult.msgs (strPfxOf elems).1 (strPfxOf elems).2 := by
  unfold decodeFrame
  rw [hd]
  rfl

/-- C7: (1) a frame whose first character is not `a` (`o`, `h`, or
anything else) dispatches no inner messages; (2) a well-formed
`a<json-array>` frame whose array elements are strings dispatches
exactly those strings in array order; (3) a frame with malformed JSON
after the `a` marker dispatches nothing, leaves the client state
untouched (in particular the socket is not closed), and only logs via
`console.error` — the decode failure is caught, never thrown. -/
theorem c7_frame_classification :
    (∀ d : String, frameHead d ≠ some 'a' → sockjsDispatched d = []) ∧
    (∀ (d : String) (cs : List Char) (ss : List String), d.data = 'a' :: cs →
      parseJsonChars cs = some (Json.arr (ss.map Json.str)) →
      sockjsDispatched d = ss) ∧
    (∀ (c : Client) (d : String) (cs : List Char), d.data = 'a' :: cs →
      parseJsonChars cs = none →
      sockjsDispatched d = [] ∧ handleMessage c d = (c, [Eff.consoleErr])) := by
  refine ⟨?_, ?_, ?_⟩
  · intro d h
    unfold sockjsDispatched
    rw [decodeFrame_ignore d h]
  · intro d cs ss hd hp
    unfold sockjsDispatched
    rw [decodeFrame_a d cs hd, hp]
    dsimp only [forOfElems]
    rw [strPfxOf_map_str]
  · intro c d cs hd hp
    constructor
    · unfold sockjsDispatched
      rw [decodeFrame_a d cs hd, hp]
    · unfold handleMessage
      rw [decodeFrame_a d cs hd, hp]

/-- C7 witness: a heartbeat frame, a two-message array frame, and a
malformed frame, each concrete. -/
theorem c7_frame_classification_witness :
    sockjsDispatched (("h")) = [] ∧
    sockjsDispatched (("a[\"x\",\"y\"]")) = [("x"), ("y")] ∧
    (sockjsDispatched (("a[oops")) = [] ∧
      handleMessage (mkClient (("t"))) (("a[oops")) = (mkClient (("t")), [Eff.consoleErr])) := by
  refine ⟨?_, ?_, ?_⟩
  · exact c7_frame_classification.1 (("h")) (by decide)
  · exact c7_frame_classification.2.1 (("a[\"x\",\"y\"]")) (("[\"x\",\"y\"]")).data
      [("x"), ("y")] rfl rfl
  · exact c7_frame_classification.2.2 (mkClient (("t"))) (("a[oops")) (("[oops")).data rfl rfl

lemma parseHexDigit_hexDigit (n : Nat) (h : n < 16) :
    parseHexDigit (hexDigit n) = some n := by
  interval_cases n <;> decide

lemma psb_quote (rest : List Char) : parseStringBody ('"' :: rest) = some ([], rest) := by
  rw [parseStringBody.eq_def]
  simp

lemma psb_esc_quote (X : List Char) :
    parseStringBody ('\\' :: '"' :: X) =
      (parseStringBody X).map (fun p => ('"' :: p.1, p.2)) := by
  rw [parseStringBody.eq_def]
  simp

lemma psb_esc_back (X : List Char) :
    parseStringBody ('\\' :: '\\' :: X) =
      (parseStringBody X).map (fun p => ('\\' :: p.1, p.2)) := by
  rw [parseStringBody.eq_def]
  simp

lemma psb_esc_b (X : List Char) :
    parseStringBody ('\\' :: 'b' :: X) =
      (parseStringBody X).map (fun p => (Char.ofNat 8 :: p.1, p.2)) := by
  rw [parseStringBody.eq_def]
  simp

lemma psb_esc_t (X : List Char) :
    parseStringBody ('\\' :: 't' :: X) =
      (parseStringBody X).map (fun p => (Char.ofNat 9 :: p.1, p.2)) := by
  rw [parseStringBody.eq_def]
  simp

lemma psb_esc_n (X : List Char) :
    parseStringBody ('\\' :: 'n' :: X) =
      (parseStringBody X).map (fun p => (Char.ofNat 10 :: p.1, p.2)) := by
  rw [parseStringBody.eq_def]
  simp

lemma psb_esc_f (X : List Char) :
    parseStringBody ('\\' :: 'f' :: X) =
      (parseStringBody X).map (fun p => (Char.ofNat 12 :: p.1, p.2)) := by
  rw [parseStringBody.eq_def]
  simp

lemma psb_esc_r (X : List Char) :
    parseStringBody ('\\' :: 'r' :: X) =
      (parseStringBody X).map (fun p => (Char.ofNat 13 :: p.1, p.2)) := by
  rw [parseStringBody.eq_def]
  simp

lemma psb_esc_u (d1 d2 d3 d4 : Char) (X : List Char) :
    parseStringBody ('\\' :: 'u' :: d1 :: d2 :: d3 :: d4 :: X) =
      (match parseHexDigit d1, parseHexDigit d2, parseHexDigit d3, parseHexDigit d4 with
       | some a, some b, some c2, some d =>
         (parseStringBody X).map
           (fun p => (Char.ofNat (a * 4096 + b * 256 + c2 * 16 + d) :: p.1, p.2))
       | _, _, _, _ => none) := by
  rw [parseStringBody.eq_def]
  simp

lemma psb_ord (c : Char) (X : List Char) (hq : ¬ c = '"') (hb : ¬ c = '\\')
    (hc : ¬ c.toNat < 32) :
    parseStringBody (c :: X) = (parseStringBody X).map (fun p => (c :: p.1, p.2)) := by
  rw [parseStringBody.eq_def]
  simp [hq, hb, hc]

lemma parseStringBody_esc (l : List Char) (rest : List Char) :
    parseStringBody (l.flatMap escChar ++ '"' :: rest) = some (l, rest) := by
  induction l with
  | nil => exact psb_quote rest
  | cons c l ih =>
    simp only [List.flatMap_cons, List.append_assoc]
    by_cases h1 : c = '"'
    · subst h1
      simp [escChar]
      rw [psb_esc_quote, ih]
      rfl
    · by_cases h2 : c = '\\'
      · subst h2
        simp [escChar, h1]
        rw [psb_esc_back, ih]
        rfl
      · by_cases h3 : c = Char.ofNat 8
        · subst h3
          simp [escChar, h1, h2]
          rw [psb_esc_b, ih]
          rfl
        · by_cases h4 : c = Char.ofNat 9
          · subst h4
            simp [escChar, h1, h2, h3]
            rw [psb_esc_t, ih]
            rfl
          · by_cases h5 : c = Char.ofNat 10
            · subst h5
              simp [escChar, h1, h2, h3, h4]
              rw [psb_esc_n, ih]
              rfl
            · by_cases h6 : c = Char.ofNat 12
              · subst h6
                simp [escChar, h1, h2, h3, h4, h5]
                rw [psb_esc_f, ih]
                rfl
              · by_cases h7 : c = Char.ofNat 13
                · subst h7
                  simp [escChar, h1, h2, h3, h4, h5, h6]
                  rw [psb_esc_r, ih]
                  rfl
                · by_cases h8 : c.toNat < 32
                  · simp [escChar, h1, h2, h3, h4, h5, h6, h7, h8]
                    rw [psb_esc_u]
                    rw [show parseHexDigit '0' = some 0 from rfl,
                        parseHexDigit_hexDigit (c.toNat / 16) (by omega),
                        parseHexDigit_hexDigit (c.toNat % 16) (by omega)]
                    dsimp only
                    rw [ih]
                    have hv : 0 * 4096 + 0 * 256 + c.toNat / 16 * 16 + c.toNat % 16 = c.toNat := by
                      omega
                    rw [hv, Char.ofNat_toNat]
                    rfl
                  · simp [escChar, h1, h2, h3, h4, h5, h6, h7, h8]
                    rw [psb_ord c _ h1 h2 h8, ih]
                    rfl

lemma parseValue_quote_aux (k : Nat) (X : List Char) :
    parseValue (k + 1) ('"' :: X) =
      (parseStringBody X).map (fun p => (Json.str (String.mk p.1), p.2)) := by
  rw [parseValue.eq_def]
  simp [skipWs.eq_def]

lemma parseValue_arr_aux (k : Nat) (X : List Char) :
    parseValue (k + 1) ('[' :: '"' :: X) =
      match parseItemsNE k ('"' :: X) with
      | some (vs, r) => some (Json.arr vs, r)
      | none => none := by
  rw [parseValue.eq_def]
  simp [skipWs.eq_def]

lemma parseItemsNE_step (n : Nat) (cs : List Char) :
    parseItemsNE (n + 1) cs =
      match parseValue n cs with
      | none => none
      | some (v, rest) =>
        match skipWs rest with
        | ',' :: rest2 =>
          match parseItemsNE n rest2 with
          | some (vs, r) => some (v :: vs, r)
          | none => none
        | ']' :: rest2 => some ([v], rest2)
        | _ => none := by
  rw [parseItemsNE.eq_def]

lemma stringify_single_data (m : String) :
    (jsonStringifyArr [m]).data =
      '[' :: '"' :: (m.data.flatMap escChar ++ '"' :: ']' :: []) := by
  simp [jsonStringifyArr, joinComma, quoteChars, List.append_assoc]

lemma parse_roundtrip (m : String) (k : Nat) :
    parseValue (k + 3) ((jsonStringifyArr [m]).data) = some (Json.arr [Json.str m], []) := by
  rw [stringify_single_data]
  rw [show k + 3 = (k + 2) + 1 from rfl, parseValue_arr_aux]
  rw [show k + 2 = (k + 1) + 1 from rfl, parseItemsNE_step]
  rw [parseValue_quote_aux, parseStringBody_esc]
  rfl

lemma parseJsonChars_stringify (m : String) :
    parseJsonChars ((jsonStringifyArr [m]).data) = some (Json.arr [Json.str m]) := by
  unfold parseJsonChars
  have h1 : 1 ≤ ((jsonStringifyArr [m]).data).length := by
    rw [stringify_single_data]
    simp
  rw [show ((jsonStringifyArr [m]).data).length + 2 =
      (((jsonStringifyArr [m]).data).length - 1) + 3 from by omega]
  rw [parse_roundtrip]
  rfl

/-- C3 counterexample: the outbound path sends the bare JSON array
(`JSON.stringify([msg])`) with no SockJS `a` marker, and the inbound
decoder dispatches nothing from a frame that does not start with `a`;
feeding the encoded frame for `hello` straight back into the decoder
dispatches nothing, not the claimed original message. -/
theorem c3_counterexample :
    sockjsDispatched (jsonStringifyArr [("hello")]) = [] ∧
    sockjsDispatched (jsonStringifyArr [("hello")]) ≠ [("hello")] := by decide

/-- C3 (amended): the round trip holds across the wire pair of the
SockJS framing: for every message `m`, encoding `[m]` with the outbound
path and prefixing the server-side `a` marker makes the inbound decoder
dispatch back exactly `[m]` — the message itself is unchanged by
encode/decode, including every escaped character. -/
theorem c3_roundtrip (m : String) :
    sockjsDispatched ((("a")) ++ jsonStringifyArr [m]) = [m] := by
  unfold sockjsDispatched
  have hd : ((("a")) ++ jsonStringifyArr [m]).data = 'a' :: (jsonStringifyArr [m]).data := by
    rw [String.data_append, show (("a")).data = ['a'] from by decide]
    rfl
  rw [decodeFrame_a _ _ hd, parseJsonChars_stringify]
  rfl
